import Mathlib

/-!
Shallow embedding of `src/scope.py`, a decoder for the header of a
classic-format netCDF file.  The Python code threads a file object `inp`
(read sequentially) and a mutable dict `p` through a chain of decoding
functions; failures are Python exceptions.  Here the file object becomes a
`ByteCursor` (byte list plus cursor position), the dict becomes the record
`PDict` of optional fields, and each Python function becomes a function
`... → Except PyErr (result × ByteCursor)`.

Faithfulness notes (each is visible at the matching definition below):
* Python `inp.read(n)` returns *up to* `n` bytes (fewer at end of file) and
  advances by the number actually returned; `ByteCursor.read` does the same.
* `struct.unpack('>i', b)` demands exactly 4 bytes, else raises
  `struct.error`; modelled by `unpack_i32` returning `PyErr.structError`.
* Three statements in the source crash with a non-FormatError exception:
  `numrecs` line `p.numrecs = 'streaming'` sets an attribute on a dict
  (`AttributeError`); `numrecs` line
  `raise FormatError("numrecs field is {%d} ...".format(numrecs))` has a
  %-style placeholder inside a `str.format` field, so building the message
  raises `KeyError` before any `FormatError` exists; `att_list` line
  `p['gatt_list'] = 'absent'` and `var_list` line `...format(attribute)`
  reference names that are not in scope (`NameError`).
* Python `str(bytes, 'utf-8')` is modelled by keeping the raw byte list and
  checking strict UTF-8 validity with `utf8Valid` (invalid input raises
  `UnicodeDecodeError`); a decoded name is represented by its byte list.
* `struct.unpack` of float/double produces IEEE-754 values; elements are
  modelled by their big-endian bit patterns (`NCVal.bits32`/`bits64`),
  which determines them uniquely.
-/

/-- A Python exception kind observable from the decoder. -/
inductive FmtKind where
  | wrongMagic
  | badVersion (b : Nat)
  | expectedAbsentDim (bytes : List Nat)
  | wrongTagDim (bytes : List Nat)
  | expectedAbsentAtt (bytes : List Nat)
  | wrongTagAtt (bytes : List Nat)
  | expectedAbsentVar (bytes : List Nat)
  | expectedNonNeg (n : Int)
  | invalidNcType (x : Int)
  | wrongNamePadding
  | nameNegLen (n : Int)
  | invalidDimLength (n : Int)
deriving Repr, DecidableEq

inductive PyErr where
  | formatError (k : FmtKind)
  | structError
  | nameError
  | attributeError
  | keyError
  | indexError
  | unicodeDecodeError
deriving Repr, DecidableEq

/-- The sequential byte source: `data` is the whole input, `pos` the cursor. -/
structure ByteCursor where
  data : List Nat
  pos : Nat
deriving Repr, DecidableEq

/-- Python `inp.read(n)`: up to `n` bytes, advancing by the number returned. -/
def ByteCursor.read (s : ByteCursor) (n : Nat) : List Nat × ByteCursor :=
  let b := (s.data.drop s.pos).take n
  (b, ⟨s.data, s.pos + b.length⟩)

/-- Big-endian value of a byte list. -/
def beNat (bs : List Nat) : Nat :=
  bs.foldl (fun a x => 256 * a + x) 0

/-- Two's-complement reading at width `w` of an unsigned value. -/
def toSigned (w : Nat) (v : Nat) : Int :=
  if v < 2 ^ (w - 1) then (v : Int) else (v : Int) - 2 ^ w

/-- `struct.unpack('>i', b)`: exactly 4 bytes or `struct.error`. -/
def unpack_i32 (b : List Nat) : Except PyErr Int :=
  if b.length = 4 then .ok (toSigned 32 (beNat b)) else .error .structError

/-- Sequencing of fallible decoding steps (exception propagation). -/
def ebind {α β : Type} (x : Except PyErr α) (f : α → Except PyErr β) :
    Except PyErr β :=
  match x with
  | .error e => .error e
  | .ok a => f a

@[simp] theorem ebind_ok {α β : Type} (a : α) (f : α → Except PyErr β) :
    ebind (.ok a) f = f a := rfl

@[simp] theorem ebind_error {α β : Type} (e : PyErr) (f : α → Except PyErr β) :
    ebind (.error e) f = .error e := rfl

/-- Strict UTF-8 validity, as checked by Python `str(b, 'utf-8')`:
    no overlong forms, no surrogates, max U+10FFFF. -/
def utf8Valid : List Nat → Bool
  | [] => true
  | b :: r =>
    if b ≤ 0x7F then utf8Valid r
    else if 0xC2 ≤ b && b ≤ 0xDF then
      match r with
      | c1 :: r1 => (0x80 ≤ c1 && c1 ≤ 0xBF) && utf8Valid r1
      | [] => false
    else if b = 0xE0 then
      match r with
      | c1 :: c2 :: r2 =>
          (0xA0 ≤ c1 && c1 ≤ 0xBF) && (0x80 ≤ c2 && c2 ≤ 0xBF) && utf8Valid r2
      | _ => false
    else if (0xE1 ≤ b && b ≤ 0xEC) || b = 0xEE || b = 0xEF then
      match r with
      | c1 :: c2 :: r2 =>
          (0x80 ≤ c1 && c1 ≤ 0xBF) && (0x80 ≤ c2 && c2 ≤ 0xBF) && utf8Valid r2
      | _ => false
    else if b = 0xED then
      match r with
      | c1 :: c2 :: r2 =>
          (0x80 ≤ c1 && c1 ≤ 0x9F) && (0x80 ≤ c2 && c2 ≤ 0xBF) && utf8Valid r2
      | _ => false
    else if b = 0xF0 then
      match r with
      | c1 :: c2 :: c3 :: r3 =>
          (0x90 ≤ c1 && c1 ≤ 0xBF) && (0x80 ≤ c2 && c2 ≤ 0xBF) &&
            (0x80 ≤ c3 && c3 ≤ 0xBF) && utf8Valid r3
      | _ => false
    else if 0xF1 ≤ b && b ≤ 0xF3 then
      match r with
      | c1 :: c2 :: c3 :: r3 =>
          (0x80 ≤ c1 && c1 ≤ 0xBF) && (0x80 ≤ c2 && c2 ≤ 0xBF) &&
            (0x80 ≤ c3 && c3 ≤ 0xBF) && utf8Valid r3
      | _ => false
    else if b = 0xF4 then
      match r with
      | c1 :: c2 :: c3 :: r3 =>
          (0x80 ≤ c1 && c1 ≤ 0x8F) && (0x80 ≤ c2 && c2 ≤ 0xBF) &&
            (0x80 ≤ c3 && c3 ≤ 0xBF) && utf8Valid r3
      | _ => false
    else false

/-- The six recognized element kinds returned by `nc_type`
    (the Python code represents them by the strings 'byte' .. 'double'). -/
inductive NCType where
  | byte
  | char
  | short
  | int
  | float
  | double
deriving Repr, DecidableEq

/-- Storage width of each kind, the `l` assignments in `values`. -/
def tlen : NCType → Nat
  | .byte => 1
  | .char => 1
  | .short => 2
  | .int => 4
  | .float => 4
  | .double => 8

/-- One decoded array element.  Signed kinds carry their integer value;
    float/double carry the big-endian bit pattern of the chunk. -/
inductive NCVal where
  | int (i : Int)
  | bits32 (v : Nat)
  | bits64 (v : Nat)
deriving Repr, DecidableEq

/-- Result of `values`: a tuple of numbers, or one bytes object for char. -/
inductive NCValues where
  | nums (vs : List NCVal)
  | chars (bs : List Nat)
deriving Repr, DecidableEq

/-- An attribute as returned by `attr`: `(attr_name, vs)`.
    The element type and count read from the stream are not in the tuple. -/
abbrev AttRec := List Nat × NCValues

/-- A variable as returned by `var`: `(var_name, var_attr, vsize, begin)`.
    The dimension ids and the element type read from the stream are not
    in the tuple. -/
abbrev VarRec := List Nat × List AttRec × Int × Int

/-- `p['dim_list']`: the marker string 'absent' or the decoded list. -/
inductive DimListVal where
  | absent
  | present (xs : List (List Nat × Int))
deriving Repr, DecidableEq

/-- `p['var_list']`: the marker string 'absent' or the decoded list. -/
inductive VarListVal where
  | absent
  | present (xs : List VarRec)
deriving Repr, DecidableEq

/-- The dict `p` built up by `header`; each key is optional because the
    dict starts empty and keys are inserted one at a time. -/
structure PDict where
  version : Option Nat := none
  numrecs : Option Int := none
  dim_list : Option DimListVal := none
  gatt_list : Option (List AttRec) := none
  var_list : Option VarListVal := none
deriving Repr, DecidableEq

def emptyP : PDict := {}

/-- `magic(p, inp)`: 4 bytes, prefix `b'CDF'`, version byte 1 or 2.
    On a read of fewer than 4 bytes that still starts with `CDF`,
    `magic[3]` raises `IndexError`. -/
def magic (p : PDict) (s : ByteCursor) : Except PyErr (PDict × ByteCursor) :=
  match s.read 4 with
  | (m, s1) =>
    if m.take 3 ≠ [0x43, 0x44, 0x46] then
      .error (.formatError .wrongMagic)
    else
      match m.get? 3 with
      | none => .error .indexError
      | some version =>
        if version ≠ 1 ∧ version ≠ 2 then
          .error (.formatError (.badVersion version))
        else .ok ({ p with version := some version }, s1)

/-- `numrecs(p, inp)`.  For a value < −1 the raise statement builds its
    message with `"... {%d} ...".format(numrecs)`, which raises `KeyError`
    before the `FormatError` is constructed; for −1 the assignment
    `p.numrecs = 'streaming'` raises `AttributeError` because `p` is a
    dict. -/
def numrecs (p : PDict) (s : ByteCursor) : Except PyErr (PDict × ByteCursor) :=
  match s.read 4 with
  | (b, s1) =>
    ebind (unpack_i32 b) fun n =>
      if n < -1 then .error .keyError
      else if n = -1 then .error .attributeError
      else .ok ({ p with numrecs := some n }, s1)

/-- `non_neg(inp)`: signed 32-bit read, `FormatError` when negative. -/
def non_neg (s : ByteCursor) : Except PyErr (Int × ByteCursor) :=
  match s.read 4 with
  | (b, s1) =>
    ebind (unpack_i32 b) fun n =>
      if n < 0 then .error (.formatError (.expectedNonNeg n))
      else .ok (n, s1)

def nelems (s : ByteCursor) : Except PyErr (Int × ByteCursor) :=
  non_neg s

/-- `nc_type(inp)`: type code 1..6 or `FormatError`. -/
def nc_type (s : ByteCursor) : Except PyErr (NCType × ByteCursor) :=
  match s.read 4 with
  | (b, s1) =>
    ebind (unpack_i32 b) fun x =>
      if x ≠ 1 ∧ x ≠ 2 ∧ x ≠ 3 ∧ x ≠ 4 ∧ x ≠ 5 ∧ x ≠ 6 then
        .error (.formatError (.invalidNcType x))
      else if x = 1 then .ok (.byte, s1)
      else if x = 2 then .ok (.char, s1)
      else if x = 3 then .ok (.short, s1)
      else if x = 4 then .ok (.int, s1)
      else if x = 5 then .ok (.float, s1)
      else .ok (.double, s1)

/-- Decode of one element chunk by `struct.unpack`: `>b`, `>h`, `>i` are
    signed two's complement, `>f`, `>d` modelled by their bit patterns.
    The char kind never reaches this (handled as one bytes object). -/
def elemDecode (t : NCType) (chunk : List Nat) : NCVal :=
  match t with
  | .byte => .int (toSigned 8 (beNat chunk))
  | .char => .int 0
  | .short => .int (toSigned 16 (beNat chunk))
  | .int => .int (toSigned 32 (beNat chunk))
  | .float => .bits32 (beNat chunk)
  | .double => .bits64 (beNat chunk)

/-- `values(inp, type, nelems)`.  Reads `padded_length` bytes, unpacks
    `n = padded_length // l` elements (`struct.unpack` raises
    `struct.error` when the byte count is not exactly `n*l`), keeps the
    first `nelems`.  For char the unpack format is `'>{n}s'`: one bytes
    object, of which the first `nelems` bytes are kept.  All call sites
    pass a count obtained from `non_neg`, hence `ne : Nat`. -/
def values (s : ByteCursor) (t : NCType) (ne : Nat) :
    Except PyErr (NCValues × ByteCursor) :=
  let l := tlen t
  let padded_length := 4 * ((ne * l + 3) / 4)
  let n := padded_length / l
  match s.read padded_length with
  | (b, s1) =>
    if b.length ≠ n * l then .error .structError
    else if t = .char then .ok (.chars (b.take ne), s1)
    else
      .ok (.nums (((List.range n).map
        (fun i => elemDecode t ((b.drop (i * l)).take l))).take ne), s1)

/-- `name(inp)`: 4-byte length, `4*ceil(L/4)` padded bytes, UTF-8 decode
    of the first `L` (before the padding check, as in the source), then
    the padding must equal a zero string of its own length. -/
def name (s : ByteCursor) : Except PyErr (List Nat × ByteCursor) :=
  match s.read 4 with
  | (b, s1) =>
    ebind (unpack_i32 b) fun ne =>
      if ne < 0 then .error (.formatError (.nameNegLen ne))
      else
        let padded := 4 * ((ne.toNat + 3) / 4)
        match s1.read padded with
        | (padded_name, s2) =>
          let nm := padded_name.take ne.toNat
          if ¬ utf8Valid nm then .error .unicodeDecodeError
          else
            let padding := padded_name.drop ne.toNat
            if padding ≠ List.replicate padding.length 0 then
              .error (.formatError .wrongNamePadding)
            else .ok (nm, s2)

/-- `dim_length(inp)`: non-negative signed 32-bit read. -/
def dim_length (s : ByteCursor) : Except PyErr (Int × ByteCursor) :=
  match s.read 4 with
  | (b, s1) =>
    ebind (unpack_i32 b) fun n =>
      if n < 0 then .error (.formatError (.invalidDimLength n))
      else .ok (n, s1)

/-- `dim(inp)` = `(name(inp), dim_length(inp))`. -/
def dim (s : ByteCursor) : Except PyErr ((List Nat × Int) × ByteCursor) :=
  ebind (name s) fun (nm, s1) =>
    ebind (dim_length s1) fun (dl, s2) =>
      .ok ((nm, dl), s2)

/-- `[f(inp) for i in range(n)]`: n sequential element decodes. -/
def repeatDec {α : Type} (f : ByteCursor → Except PyErr (α × ByteCursor)) :
    Nat → ByteCursor → Except PyErr (List α × ByteCursor)
  | 0, s => .ok ([], s)
  | n + 1, s =>
    ebind (f s) fun (x, s1) =>
      ebind (repeatDec f n s1) fun (xs, s2) =>
        .ok (x :: xs, s2)

/-- `dim_list(p, inp)`. -/
def dim_list (p : PDict) (s : ByteCursor) :
    Except PyErr (PDict × ByteCursor) :=
  match s.read 4 with
  | (d, s1) =>
    if d = [0, 0, 0, 0] then
      match s1.read 4 with
      | (n, s2) =>
        if n ≠ [0, 0, 0, 0] then .error (.formatError (.expectedAbsentDim n))
        else .ok ({ p with dim_list := some .absent }, s2)
    else if d ≠ [0, 0, 0, 0x0a] then
      .error (.formatError (.wrongTagDim d))
    else
      ebind (nelems s1) fun (n, s2) =>
        ebind (repeatDec dim n.toNat s2) fun (ds, s3) =>
          .ok ({ p with dim_list := some (.present ds) }, s3)

/-- `attr(inp)`: the returned tuple is `(attr_name, vs)` only. -/
def attr (s : ByteCursor) : Except PyErr (AttRec × ByteCursor) :=
  ebind (name s) fun (attr_name, s1) =>
    ebind (nc_type s1) fun (t, s2) =>
      ebind (nelems s2) fun (n, s3) =>
        ebind (values s3 t n.toNat) fun (vs, s4) =>
          .ok ((attr_name, vs), s4)

/-- `att_list(inp)`.  In the ABSENT branch the source executes
    `p['gatt_list'] = 'absent'`, but `att_list` has no parameter or global
    named `p`: evaluating it raises `NameError`, so the absent branch can
    never return. -/
def att_list (s : ByteCursor) :
    Except PyErr (List AttRec × ByteCursor) :=
  match s.read 4 with
  | (a, s1) =>
    if a = [0, 0, 0, 0] then
      match s1.read 4 with
      | (n, _s2) =>
        if n ≠ [0, 0, 0, 0] then .error (.formatError (.expectedAbsentAtt n))
        else .error .nameError
    else if a ≠ [0, 0, 0, 0x0c] then
      .error (.formatError (.wrongTagAtt a))
    else
      ebind (nelems s1) fun (n, s2) =>
        repeatDec attr n.toNat s2

/-- `gatt_list(p, inp)` = `p['gatt_list'] = att_list(inp)`. -/
def gatt_list (p : PDict) (s : ByteCursor) :
    Except PyErr (PDict × ByteCursor) :=
  ebind (att_list s) fun (as1, s1) =>
    .ok ({ p with gatt_list := some as1 }, s1)

/-- `var(inp)`: reads name, dimension-id list, attribute list, type,
    vsize, begin — and returns only `(var_name, var_attr, vsize, begin)`;
    `dimensions` and `type` are read but dropped. -/
def var (s : ByteCursor) : Except PyErr (VarRec × ByteCursor) :=
  ebind (name s) fun (var_name, s1) =>
    ebind (nelems s1) fun (n, s2) =>
      ebind (repeatDec non_neg n.toNat s2) fun (_dimensions, s3) =>
        ebind (att_list s3) fun (var_attr, s4) =>
          ebind (nc_type s4) fun (_t, s5) =>
            ebind (non_neg s5) fun (vsize, s6) =>
              ebind (non_neg s6) fun (begin1, s7) =>
                .ok ((var_name, var_attr, vsize, begin1), s7)

/-- `var_list(p, inp)`.  In the wrong-tag branch the raise statement's
    message calls `format(attribute)` where no name `attribute` is in
    scope: evaluating the argument raises `NameError` before the
    `FormatError` exists.  The `print` on the present branch is an
    I/O side effect with no bearing on the result and is omitted. -/
def var_list (p : PDict) (s : ByteCursor) :
    Except PyErr (PDict × ByteCursor) :=
  match s.read 4 with
  | (b, s1) =>
    if b = [0, 0, 0, 0] then
      match s1.read 4 with
      | (n, s2) =>
        if n ≠ [0, 0, 0, 0] then .error (.formatError (.expectedAbsentVar n))
        else .ok ({ p with var_list := some .absent }, s2)
    else if b ≠ [0, 0, 0, 0x0b] then
      .error .nameError
    else
      ebind (nelems s1) fun (n, s2) =>
        ebind (repeatDec var n.toNat s2) fun (vs, s3) =>
          .ok ({ p with var_list := some (.present vs) }, s3)

/-- `header(p, inp)`: the five steps in source order. -/
def header (p : PDict) (s : ByteCursor) :
    Except PyErr (PDict × ByteCursor) :=
  ebind (magic p s) fun (p, s) =>
    ebind (numrecs p s) fun (p, s) =>
      ebind (dim_list p s) fun (p, s) =>
        ebind (gatt_list p s) fun (p, s) =>
          var_list p s

/-- `parse`: run `header` on an empty dict from offset 0 of the bytes. -/
def decode (data : List Nat) : Except PyErr (PDict × ByteCursor) :=
  header emptyP ⟨data, 0⟩

instance {ε α : Type} [DecidableEq ε] [DecidableEq α] :
    DecidableEq (Except ε α) := fun x y =>
  match x, y with
  | .ok a, .ok b =>
    if h : a = b then isTrue (by rw [h])
    else isFalse (fun hc => h (by injection hc))
  | .error e, .error f =>
    if h : e = f then isTrue (by rw [h])
    else isFalse (fun hc => h (by injection hc))
  | .ok _, .error _ => isFalse (fun hc => Except.noConfusion hc)
  | .error _, .ok _ => isFalse (fun hc => Except.noConfusion hc)

/-- The 28-byte stream of the end-to-end scenario: magic `CDF` + version 1,
    record count 0, and three absent (tag 0, count 0) lists. -/
def c1Input : List Nat :=
  [0x43, 0x44, 0x46, 1] ++ [0, 0, 0, 0] ++ [0, 0, 0, 0, 0, 0, 0, 0] ++
    [0, 0, 0, 0, 0, 0, 0, 0] ++ [0, 0, 0, 0, 0, 0, 0, 0]

/-- A 36-byte variable record: name `x`, one dimension id 7, present empty
    attribute list, type short, vsize 4, begin 100. -/
def varBytes7 : List Nat :=
  [0, 0, 0, 1, 0x78, 0, 0, 0] ++ [0, 0, 0, 1] ++ [0, 0, 0, 7] ++
    [0, 0, 0, 12, 0, 0, 0, 0] ++ [0, 0, 0, 3] ++ [0, 0, 0, 4] ++
    [0, 0, 0, 100]

/-- The same record with dimension id 9 and type int instead. -/
def varBytes9 : List Nat :=
  [0, 0, 0, 1, 0x78, 0, 0, 0] ++ [0, 0, 0, 1] ++ [0, 0, 0, 9] ++
    [0, 0, 0, 12, 0, 0, 0, 0] ++ [0, 0, 0, 4] ++ [0, 0, 0, 4] ++
    [0, 0, 0, 100]

/-- A header whose global attribute list is present with zero attributes
    (the only shape under which `att_list` returns), other lists absent. -/
def goodInput : List Nat :=
  [0x43, 0x44, 0x46, 1] ++ [0, 0, 0, 0] ++ [0, 0, 0, 0, 0, 0, 0, 0] ++
    [0, 0, 0, 12, 0, 0, 0, 0] ++ [0, 0, 0, 0, 0, 0, 0, 0]

/-- The result of decoding `goodInput`. -/
def goodP : PDict :=
  { version := some 1, numrecs := some 0, dim_list := some .absent,
    gatt_list := some [], var_list := some .absent }

/-- C1: on the scenario stream (magic `43 44 46 01`, record count 0, three
    absent lists) the decode does not succeed: when `att_list` takes its
    ABSENT branch it executes `p['gatt_list'] = 'absent'` with no `p` in
    scope, so the whole decode raises `NameError` instead of returning the
    header with the three lists marked absent. -/
theorem C1_absent_lists_decode_crashes :
    decode c1Input = .error .nameError := by decide

/-- C2: record-count bytes `FF FF FF FF` (−1) do not store the streaming
    sentinel: the assignment `p.numrecs = 'streaming'` sets an attribute on
    a dict, so `numrecs` raises `AttributeError` and decoding never reaches
    the dimension list. -/
theorem C2_streaming_numrecs_raises (p : PDict) (s : ByteCursor)
    (h : (s.data.drop s.pos).take 4 = [255, 255, 255, 255]) :
    numrecs p s = .error .attributeError := by
  simp [numrecs, ByteCursor.read, h]
  rfl

/-- Witness for C2 at the concrete 4-byte input `FF FF FF FF`. -/
theorem C2_streaming_numrecs_raises_witness :
    numrecs emptyP ⟨[255, 255, 255, 255], 0⟩ = .error .attributeError :=
  C2_streaming_numrecs_raises emptyP ⟨[255, 255, 255, 255], 0⟩ (by decide)

/-- C3: a record count strictly below −1 does not produce the intended
    format-violation error: the raise statement's message
    `"numrecs field is {%d} which is invalid".format(numrecs)` mixes a
    %-placeholder into a `str.format` field, so message construction raises
    `KeyError` — the decode fails, but not with the `InvalidRecordCount`
    error and without carrying the observed value. -/
theorem C3_invalid_numrecs_raises_keyError (p : PDict) (s : ByteCursor)
    (hlen : ((s.data.drop s.pos).take 4).length = 4)
    (hneg : toSigned 32 (beNat ((s.data.drop s.pos).take 4)) < -1) :
    numrecs p s = .error .keyError := by
  simp [numrecs, ByteCursor.read, unpack_i32, hlen, hneg]

/-- Witness for C3 at the concrete 4-byte input `FF FF FF FE` (−2). -/
theorem C3_invalid_numrecs_raises_keyError_witness :
    numrecs emptyP ⟨[255, 255, 255, 254], 0⟩ = .error .keyError :=
  C3_invalid_numrecs_raises_keyError emptyP ⟨[255, 255, 255, 254], 0⟩
    (by decide) (by decide)

/-- C4: a variable-list tag that is neither 0 nor `0x0000000B` does not
    produce the `WrongListTag` format-violation error: the raise
    statement's message evaluates `format(attribute)` with no name
    `attribute` in scope in `var_list`, raising `NameError` instead. -/
theorem C4_var_list_wrong_tag_raises_nameError (p : PDict) (s : ByteCursor)
    (_hlen : ((s.data.drop s.pos).take 4).length = 4)
    (h0 : (s.data.drop s.pos).take 4 ≠ [0, 0, 0, 0])
    (hb : (s.data.drop s.pos).take 4 ≠ [0, 0, 0, 0x0b]) :
    var_list p s = .error .nameError := by
  simp [var_list, ByteCursor.read, h0, hb]

/-- Witness for C4 at the concrete tag `00 00 00 0A` (dimension-list tag
    in variable-list position). -/
theorem C4_var_list_wrong_tag_raises_nameError_witness :
    var_list emptyP ⟨[0, 0, 0, 0x0a], 0⟩ = .error .nameError :=
  C4_var_list_wrong_tag_raises_nameError emptyP ⟨[0, 0, 0, 0x0a], 0⟩
    (by decide) (by decide) (by decide)

/-- C5: truncation is not turned into a `TruncatedInput` format error.
    First conjunct: a name field declaring length 1 (needing 4 padded
    bytes) with only one byte `78` left is decoded *successfully* as the
    name `x` — the padding check compares the short padding against a zero
    string of the same short length, so the short read passes silently.
    Second conjunct: a 4-byte integer field with only 2 bytes left fails
    with `struct.error`, which is not one of the format-violation errors. -/
theorem C5_truncation_not_reported :
    name ⟨[0, 0, 0, 1, 0x78], 0⟩ =
      .ok ([0x78], ⟨[0, 0, 0, 1, 0x78], 5⟩) ∧
    non_neg ⟨[1, 2], 0⟩ = .error .structError := by decide

/-- C8: the descriptor returned for a variable omits the dimension ids and
    the element type it read: two records identical except for dimension
    id (7 vs 9) and element type (short vs int) decode to the *same*
    4-tuple `(name, attributes, vsize, begin)`. -/
theorem C8_var_drops_dimension_ids_and_type :
    var ⟨varBytes7, 0⟩ = .ok (([0x78], [], 4, 100), ⟨varBytes7, 36⟩) ∧
    var ⟨varBytes9, 0⟩ = .ok (([0x78], [], 4, 100), ⟨varBytes9, 36⟩) :=
  ⟨rfl, rfl⟩

/-- A read whose requested byte count fits in the remaining input returns
    exactly that many bytes. -/
theorem read_length_of_le (s : ByteCursor) (n : Nat)
    (h : s.pos + n ≤ s.data.length) :
    ((s.data.drop s.pos).take n).length = n := by
  simp [List.length_take, List.length_drop]
  omega

/-- C9: the decode result is a function of the input bytes alone — two
    successful runs over identical byte streams produce structurally
    identical header dicts. -/
theorem C9_decode_deterministic (bs1 bs2 : List Nat) (hbs : bs1 = bs2)
    (p1 p2 : PDict) (s1 s2 : ByteCursor)
    (h1 : decode bs1 = .ok (p1, s1)) (h2 : decode bs2 = .ok (p2, s2)) :
    p1 = p2 := by
  subst hbs
  rw [h1] at h2
  injection h2 with h3
  exact congrArg Prod.fst h3

/-- Witness for C9: `goodInput` decodes successfully (to `goodP`), and the
    two runs over it agree. -/
theorem C9_decode_deterministic_witness :
    decode goodInput = .ok (goodP, ⟨goodInput, 32⟩) ∧ goodP = goodP :=
  ⟨by decide,
   C9_decode_deterministic goodInput goodInput rfl goodP goodP
     ⟨goodInput, 32⟩ ⟨goodInput, 32⟩ (by decide) (by decide)⟩

/-- C10: a name field whose 4-byte length prefix is 0 decodes successfully
    to the empty name, consuming exactly the 4 length bytes. -/
theorem C10_empty_name_ok (s : ByteCursor)
    (h : (s.data.drop s.pos).take 4 = [0, 0, 0, 0]) :
    name s = .ok ([], ⟨s.data, s.pos + 4⟩) := by
  have hv : utf8Valid [] = true := rfl
  simp [name, ByteCursor.read, h, unpack_i32, beNat, toSigned, hv]

/-- Witness for C10 at the concrete 4-byte input `00 00 00 00`. -/
theorem C10_empty_name_ok_witness :
    name ⟨[0, 0, 0, 0], 0⟩ = .ok ([], ⟨[0, 0, 0, 0], 4⟩) :=
  C10_empty_name_ok ⟨[0, 0, 0, 0], 0⟩ (by decide)


/-- C6: for every recognized element type and non-negative count, with
    enough input bytes `values` succeeds and returns exactly `count`
    elements — for char, one bytes value of length `count` — whatever the
    number of trailing padding bytes consumed to reach the 4-byte
    boundary. -/
theorem C6_values_count (t : NCType) (ne : Nat) (s : ByteCursor)
    (h : s.pos + 4 * ((ne * tlen t + 3) / 4) ≤ s.data.length) :
    ∃ s' : ByteCursor,
      (t = .char → ∃ bs : List Nat,
        values s t ne = .ok (.chars bs, s') ∧ bs.length = ne) ∧
      (t ≠ .char → ∃ vs : List NCVal,
        values s t ne = .ok (.nums vs, s') ∧ vs.length = ne) := by
  have hb := read_length_of_le s (4 * ((ne * tlen t + 3) / 4)) h
  cases t with
  | char =>
    simp only [tlen] at hb
    refine ⟨⟨s.data, s.pos + 4 * ((ne * 1 + 3) / 4)⟩,
      fun _ => ?_, fun hc => absurd rfl hc⟩
    simp only [values, tlen, ByteCursor.read]
    rw [hb]
    rw [if_neg (by omega), if_pos trivial]
    refine ⟨_, rfl, ?_⟩
    rw [List.length_take, hb]
    omega
  | byte =>
    simp only [tlen] at hb
    refine ⟨⟨s.data, s.pos + 4 * ((ne * 1 + 3) / 4)⟩,
      fun hc => absurd hc (by decide), fun _ => ?_⟩
    simp only [values, tlen, ByteCursor.read]
    rw [hb]
    rw [if_neg (by omega), if_neg (by decide)]
    refine ⟨_, rfl, ?_⟩
    simp only [List.length_take, List.length_map, List.length_range]
    omega
  | short =>
    simp only [tlen] at hb
    refine ⟨⟨s.data, s.pos + 4 * ((ne * 2 + 3) / 4)⟩,
      fun hc => absurd hc (by decide), fun _ => ?_⟩
    simp only [values, tlen, ByteCursor.read]
    rw [hb]
    rw [if_neg (by omega), if_neg (by decide)]
    refine ⟨_, rfl, ?_⟩
    simp only [List.length_take, List.length_map, List.length_range]
    omega
  | int =>
    simp only [tlen] at hb
    refine ⟨⟨s.data, s.pos + 4 * ((ne * 4 + 3) / 4)⟩,
      fun hc => absurd hc (by decide), fun _ => ?_⟩
    simp only [values, tlen, ByteCursor.read]
    rw [hb]
    rw [if_neg (by omega), if_neg (by decide)]
    refine ⟨_, rfl, ?_⟩
    simp only [List.length_take, List.length_map, List.length_range]
    omega
  | float =>
    simp only [tlen] at hb
    refine ⟨⟨s.data, s.pos + 4 * ((ne * 4 + 3) / 4)⟩,
      fun hc => absurd hc (by decide), fun _ => ?_⟩
    simp only [values, tlen, ByteCursor.read]
    rw [hb]
    rw [if_neg (by omega), if_neg (by decide)]
    refine ⟨_, rfl, ?_⟩
    simp only [List.length_take, List.length_map, List.length_range]
    omega
  | double =>
    simp only [tlen] at hb
    refine ⟨⟨s.data, s.pos + 4 * ((ne * 8 + 3) / 4)⟩,
      fun hc => absurd hc (by decide), fun _ => ?_⟩
    simp only [values, tlen, ByteCursor.read]
    rw [hb]
    rw [if_neg (by omega), if_neg (by decide)]
    refine ⟨_, rfl, ?_⟩
    simp only [List.length_take, List.length_map, List.length_range]
    omega

/-- Witness for C6 at type short, count 1, a 4-byte input. -/
theorem C6_values_count_witness :
    0 + 4 * ((1 * tlen NCType.short + 3) / 4) ≤
      ([0, 1, 0, 2] : List Nat).length ∧
    ∃ s' : ByteCursor,
      (NCType.short = NCType.char → ∃ bs : List Nat,
        values ⟨[0, 1, 0, 2], 0⟩ NCType.short 1 = .ok (.chars bs, s') ∧
          bs.length = 1) ∧
      (NCType.short ≠ NCType.char → ∃ vs : List NCVal,
        values ⟨[0, 1, 0, 2], 0⟩ NCType.short 1 = .ok (.nums vs, s') ∧
          vs.length = 1) :=
  ⟨by decide, C6_values_count NCType.short 1 ⟨[0, 1, 0, 2], 0⟩ (by decide)⟩

/-- C7 counterexample: a name of declared length 1 whose text byte `FF` is
    invalid UTF-8 and whose padding bytes `01 00 00` are non-zero fails
    with `UnicodeDecodeError`, not `BadPadding`: the source decodes the
    text before checking the padding, so non-zero padding does not always
    produce `BadPadding`. -/
theorem C7_counterexample_utf8_precedes_padding :
    name ⟨[0, 0, 0, 1, 255, 1, 0, 0], 0⟩ = .error .unicodeDecodeError ∧
    name ⟨[0, 0, 0, 1, 255, 1, 0, 0], 0⟩ ≠
      .error (.formatError .wrongNamePadding) := by decide

/-- C7 as amended: for a name field of non-negative declared length `L`
    with all `4*ceil(L/4)` padded bytes available, the padded length is a
    multiple of 4 and ≥ L; *provided the first `L` bytes are valid UTF-8*,
    any non-zero byte beyond index `L` fails with `BadPadding`, and
    otherwise `name` consumes exactly `4 + 4*ceil(L/4)` bytes and returns
    the first `L` bytes decoded as text. -/
theorem C7_name_padded (s : ByteCursor) (L : Nat)
    (hlen : ((s.data.drop s.pos).take 4).length = 4)
    (hL : toSigned 32 (beNat ((s.data.drop s.pos).take 4)) = (L : Int))
    (hav : s.pos + 4 + 4 * ((L + 3) / 4) ≤ s.data.length) :
    4 * ((L + 3) / 4) % 4 = 0 ∧ L ≤ 4 * ((L + 3) / 4) ∧
    (utf8Valid (((s.data.drop (s.pos + 4)).take (4 * ((L + 3) / 4))).take L) =
        true →
      ((s.data.drop (s.pos + 4)).take (4 * ((L + 3) / 4))).drop L ≠
        List.replicate (4 * ((L + 3) / 4) - L) 0 →
      name s = .error (.formatError .wrongNamePadding)) ∧
    (utf8Valid (((s.data.drop (s.pos + 4)).take (4 * ((L + 3) / 4))).take L) =
        true →
      ((s.data.drop (s.pos + 4)).take (4 * ((L + 3) / 4))).drop L =
        List.replicate (4 * ((L + 3) / 4) - L) 0 →
      name s = .ok (((s.data.drop (s.pos + 4)).take (4 * ((L + 3) / 4))).take L,
        ⟨s.data, s.pos + 4 + 4 * ((L + 3) / 4)⟩)) := by
  have hspan : ((s.data.drop (s.pos + 4)).take (4 * ((L + 3) / 4))).length =
      4 * ((L + 3) / 4) := by
    simp [List.length_take, List.length_drop]
    omega
  have hname : name s = (
      if ((s.data.drop (s.pos + 4)).take (4 * ((L + 3) / 4))).drop L =
          List.replicate (4 * ((L + 3) / 4) - L) 0
      then (if utf8Valid
          (((s.data.drop (s.pos + 4)).take (4 * ((L + 3) / 4))).take L) = true
        then .ok (((s.data.drop (s.pos + 4)).take (4 * ((L + 3) / 4))).take L,
          ⟨s.data, s.pos + 4 + 4 * ((L + 3) / 4)⟩)
        else .error .unicodeDecodeError)
      else (if utf8Valid
          (((s.data.drop (s.pos + 4)).take (4 * ((L + 3) / 4))).take L) = true
        then .error (.formatError .wrongNamePadding)
        else .error .unicodeDecodeError)) := by
    simp only [name, ByteCursor.read, hlen, hL]
    simp only [unpack_i32, hlen, if_pos, ebind_ok, hL]
    rw [if_neg (by omega)]
    simp only [Int.toNat_natCast, List.length_drop, hspan]
    by_cases hu : utf8Valid
        (List.take L (List.take (4 * ((L + 3) / 4))
          (List.drop (s.pos + 4) s.data))) = true
    · by_cases hp : List.drop L (List.take (4 * ((L + 3) / 4))
          (List.drop (s.pos + 4) s.data)) =
          List.replicate (4 * ((L + 3) / 4) - L) 0
      · simp [hu, hp]
      · simp [hu, hp]
    · simp [hu]
  refine ⟨by omega, by omega, ?_, ?_⟩
  · intro hv hpad
    rw [hname, if_neg hpad, if_pos hv]
  · intro hv hpad
    rw [hname, if_pos hpad, if_pos hv]

/-- Witness for C7 at the concrete name field `00 00 00 01 61 00 00 00`
    (length 1, text `a`, zero padding): the success branch applies. -/
theorem C7_name_padded_witness :
    name ⟨[0, 0, 0, 1, 0x61, 0, 0, 0], 0⟩ =
      .ok ([0x61], ⟨[0, 0, 0, 1, 0x61, 0, 0, 0], 8⟩) :=
  (C7_name_padded ⟨[0, 0, 0, 1, 0x61, 0, 0, 0], 0⟩ 1 (by decide) (by decide)
    (by decide)).2.2.2 (by decide) (by decide)
